import Mathlib

/-!
Shallow embedding of the HR Nexus AI Marketplace server (Express + better-sqlite3 +
Socket.IO, file part_001 of the repository).  The five SQLite tables are modelled
as lists of typed rows inside one DB state; every SQL statement issued by the
server is translated into an explicit function on that state.  Conventions:

* JS number arithmetic on integer budgets is modelled as exact integer
  arithmetic; Math.floor(b * 0.2) becomes Int.fdiv (b * 2) 10 and
  Math.floor(b * 0.4) becomes Int.fdiv (b * 4) 10.
* better-sqlite3 compiles SQLite with SQLITE_DEFAULT_FOREIGN_KEYS=1, so foreign
  key enforcement is on by default.  Immediate foreign key constraints are
  checked at the conclusion of each statement, which matters for
  INSERT OR REPLACE on the users table: the replacement first deletes every
  conflicting row (same primary key id or same unique email) and then inserts
  the new row, and the statement fails only if some projects.buyer_id or
  bids.seller_id is left dangling afterwards.
* DATETIME DEFAULT CURRENT_TIMESTAMP columns are modelled by a logical clock
  that increases at every timestamped row creation, and the AUTOINCREMENT id of
  the messages table by a counter.
* Request bodies are modelled as typed records.  The socket message payload,
  which is raw client JSON, keeps Option fields: an absent field is bound as
  SQL NULL and violates the NOT NULL constraints of the messages table.
-/

/-- A row of the users table: id TEXT PRIMARY KEY, name, email UNIQUE, role
with CHECK (role IN (buyer, seller)), bio, avatar. -/
structure UserRow where
  id : String
  name : String
  email : String
  role : String
  bio : String
  avatar : String
deriving Repr, DecidableEq

/-- A row of the projects table; created_at is the logical clock value at
insertion time, status defaults to open. -/
structure ProjectRow where
  id : String
  buyer_id : String
  title : String
  description : String
  budget_min : Int
  budget_max : Int
  status : String
  created_at : Nat
deriving Repr, DecidableEq

/-- A row of the bids table; status defaults to pending. -/
structure BidRow where
  id : String
  project_id : String
  seller_id : String
  amount : Int
  proposal : String
  status : String
  created_at : Nat
deriving Repr, DecidableEq

/-- A row of the messages table; id is the AUTOINCREMENT integer key. -/
structure MessageRow where
  id : Nat
  sender_id : String
  receiver_id : String
  content : String
  timestamp : Nat
deriving Repr, DecidableEq

/-- A row of the milestones table; status defaults to pending. -/
structure MilestoneRow where
  id : String
  project_id : String
  title : String
  amount : Int
  status : String
deriving Repr, DecidableEq

/-- The single-file SQLite database: the five tables in rowid order, the
AUTOINCREMENT counter of the messages table, and the logical timestamp clock. -/
structure DB where
  users : List UserRow
  projects : List ProjectRow
  bids : List BidRow
  messages : List MessageRow
  milestones : List MilestoneRow
  nextMessageId : Nat
  clock : Nat
deriving Repr, DecidableEq

/-- The first seed user row inserted by the startup DDL block. -/
def seedBuyer : UserRow where
  id := "buyer_1"
  name := "Acme Corp HR"
  email := "hr@acme.com"
  role := "buyer"
  bio := "Fast-growing tech startup looking for HR expertise."
  avatar := "https://api.dicebear.com/7.x/avataaars/svg?seed=Acme"

/-- The second seed user row inserted by the startup DDL block. -/
def seedSeller : UserRow where
  id := "seller_1"
  name := "Sarah Jenkins"
  email := "sarah@hrconsulting.com"
  role := "seller"
  bio := "Senior HR Consultant with 10 years experience in tech recruitment and organizational design."
  avatar := "https://api.dicebear.com/7.x/avataaars/svg?seed=Sarah"

/-- The database produced by the startup DDL block: empty tables plus the two
seed users and two seed projects inserted with INSERT OR IGNORE. -/
def initialDb : DB where
  users := [seedBuyer, seedSeller]
  projects :=
    [ { id := "p1", buyer_id := "buyer_1", title := "Technical Recruitment for Engineering Team",
        description := "We are looking for a specialized recruiter to help us hire 5 senior software engineers and 2 product managers over the next 3 months.",
        budget_min := 5000, budget_max := 15000, status := "open", created_at := 0 },
      { id := "p2", buyer_id := "buyer_1", title := "Organizational Culture Audit",
        description := "Need an HR expert to conduct a full culture audit and provide recommendations for improving employee engagement in a remote-first environment.",
        budget_min := 3000, budget_max := 8000, status := "open", created_at := 1 } ]
  bids := []
  messages := []
  milestones := []
  nextMessageId := 1
  clock := 2

/-- Exact-arithmetic model of the JS expression Math.floor(b * (t/10)) used for
the auto-created milestone amounts (t is 2 or 4). -/
def floorTenths (b : Int) (t : Int) : Int :=
  Int.fdiv (b * t) 10

/-- HTTP response bodies that the API handlers can produce. -/
inductive Body where
  | ack
  | errorMsg (e : String)
  | userBody (u : UserRow)
  | projectList (l : List ProjectRow) (names : List String)
  | bidList (l : List BidRow) (names : List String)
  | milestoneList (l : List MilestoneRow)
  | adviceBody (s : String)
deriving Repr, DecidableEq

/-- An HTTP response: status code plus JSON body. -/
structure Response where
  status : Nat
  body : Body
deriving Repr, DecidableEq

/-- INSERT INTO projects: fails on a duplicate primary key id or a dangling
buyer_id foreign key (foreign keys are on by default in better-sqlite3);
status defaults to open, created_at to the current timestamp. -/
def insertProject (db : DB) (id buyer_id title description : String)
    (budget_min budget_max : Int) : Except String DB :=
  if db.projects.any (fun p => p.id == id) then
    .error "UNIQUE constraint failed: projects.id"
  else if !(db.users.any (fun u => u.id == buyer_id)) then
    .error "FOREIGN KEY constraint failed"
  else
    .ok { db with
      projects := db.projects ++
        [{ id := id, buyer_id := buyer_id, title := title, description := description,
           budget_min := budget_min, budget_max := budget_max, status := "open",
           created_at := db.clock }],
      clock := db.clock + 1 }

/-- INSERT INTO milestones: fails on a duplicate primary key id or a dangling
project_id foreign key; status defaults to pending. -/
def insertMilestone (db : DB) (id project_id title : String) (amount : Int) :
    Except String DB :=
  if db.milestones.any (fun m => m.id == id) then
    .error "UNIQUE constraint failed: milestones.id"
  else if !(db.projects.any (fun p => p.id == project_id)) then
    .error "FOREIGN KEY constraint failed"
  else
    .ok { db with
      milestones := db.milestones ++
        [{ id := id, project_id := project_id, title := title, amount := amount,
           status := "pending" }] }

/-- INSERT INTO bids: fails on a duplicate primary key id or a dangling
project_id or seller_id foreign key; status defaults to pending. -/
def insertBid (db : DB) (id project_id seller_id : String) (amount : Int)
    (proposal : String) : Except String DB :=
  if db.bids.any (fun b => b.id == id) then
    .error "UNIQUE constraint failed: bids.id"
  else if !(db.projects.any (fun p => p.id == project_id)) then
    .error "FOREIGN KEY constraint failed"
  else if !(db.users.any (fun u => u.id == seller_id)) then
    .error "FOREIGN KEY constraint failed"
  else
    .ok { db with
      bids := db.bids ++
        [{ id := id, project_id := project_id, seller_id := seller_id, amount := amount,
           proposal := proposal, status := "pending", created_at := db.clock }],
      clock := db.clock + 1 }

/-- The statement-conclusion foreign key check for a users write: every
projects.buyer_id and every bids.seller_id must resolve in the new users list. -/
def usersFkOk (db : DB) (users2 : List UserRow) : Bool :=
  db.projects.all (fun p => users2.any (fun v => v.id == p.buyer_id)) &&
  db.bids.all (fun b => users2.any (fun v => v.id == b.seller_id))

/-- The survivor predicate of INSERT OR REPLACE INTO users: a stored row
survives the replacement by u unless it conflicts with u on the primary key
id or on the unique email. -/
def replFilter (u : UserRow) (v : UserRow) : Bool :=
  !(v.id == u.id) && !(v.email == u.email)

/-- INSERT OR REPLACE INTO users: the CHECK constraint on role is verified,
then every row conflicting on the primary key id or the unique email is
deleted and the new row appended (it receives a fresh rowid, hence sits at the
end in rowid order); the statement fails if a foreign key reference into users
is left dangling at its conclusion. -/
def insertOrReplaceUser (db : DB) (u : UserRow) : Except String DB :=
  if !(u.role == "buyer" || u.role == "seller") then
    .error "CHECK constraint failed: users"
  else if usersFkOk db (db.users.filter (replFilter u) ++ [u]) then
    .ok { db with users := db.users.filter (replFilter u) ++ [u] }
  else
    .error "FOREIGN KEY constraint failed"

/-- Rows of SELECT projects.*, users.name as buyer_name FROM projects JOIN
users ON projects.buyer_id = users.id, before ordering. -/
structure ProjectWithBuyer where
  proj : ProjectRow
  buyer_name : String
deriving Repr, DecidableEq

/-- The ORDER BY created_at DESC relation on joined project rows. -/
def newestFirst (a b : ProjectWithBuyer) : Prop :=
  b.proj.created_at ≤ a.proj.created_at

instance : DecidableRel newestFirst := fun a b =>
  inferInstanceAs (Decidable (b.proj.created_at ≤ a.proj.created_at))

instance : IsTotal ProjectWithBuyer newestFirst :=
  ⟨fun a b => (Nat.le_total b.proj.created_at a.proj.created_at).elim Or.inl Or.inr⟩

instance : IsTrans ProjectWithBuyer newestFirst :=
  ⟨fun _ _ _ hab hbc => Nat.le_trans hbc hab⟩

/-- The unordered join of GET /api/projects: each project row paired with the
name of every users row whose id equals its buyer_id. -/
def projectJoinRows (db : DB) : List ProjectWithBuyer :=
  db.projects.flatMap (fun p =>
    (db.users.filter (fun u => u.id == p.buyer_id)).map (fun u => ⟨p, u.name⟩))

/-- The result rows of GET /api/projects, ordered by created_at descending. -/
def projectListing (db : DB) : List ProjectWithBuyer :=
  List.insertionSort newestFirst (projectJoinRows db)

/-- GET /api/projects handler: 200 with the joined, newest-first listing. -/
def getProjects (db : DB) : Response :=
  ⟨200, .projectList ((projectListing db).map (·.proj)) ((projectListing db).map (·.buyer_name))⟩

/-- POST /api/projects handler: inserts the project, then auto-creates the
three milestones one statement at a time (their ids are the three fresh UUID
strings passed as arguments); answers 201 on success, 500 with the raw error
message on the first failing statement, with no rollback of earlier inserts. -/
def postProjects (db : DB) (id buyer_id title description : String)
    (budget_min budget_max : Int) (m1 m2 m3 : String) : DB × Response :=
  match insertProject db id buyer_id title description budget_min budget_max with
  | .error e => (db, ⟨500, .errorMsg e⟩)
  | .ok db1 =>
    match insertMilestone db1 m1 id "Project Kickoff & Strategy" (floorTenths budget_min 2) with
    | .error e => (db1, ⟨500, .errorMsg e⟩)
    | .ok db2 =>
      match insertMilestone db2 m2 id "Initial Talent Sourcing" (floorTenths budget_min 4) with
      | .error e => (db2, ⟨500, .errorMsg e⟩)
      | .ok db3 =>
        match insertMilestone db3 m3 id "Final Placement & Onboarding" (floorTenths budget_min 4) with
        | .error e => (db3, ⟨500, .errorMsg e⟩)
        | .ok db4 => (db4, ⟨201, .ack⟩)

/-- GET /api/users/:id handler: the first users row with the given id, else a
404 with body error User not found. -/
def getUserById (db : DB) (uid : String) : Response :=
  match db.users.find? (fun u => u.id == uid) with
  | some u => ⟨200, .userBody u⟩
  | none => ⟨404, .errorMsg "User not found"⟩

/-- POST /api/users handler: INSERT OR REPLACE upsert; 201 on success, 500
with the raw error message on failure. -/
def postUsers (db : DB) (u : UserRow) : DB × Response :=
  match insertOrReplaceUser db u with
  | .ok db2 => (db2, ⟨201, .ack⟩)
  | .error e => (db, ⟨500, .errorMsg e⟩)

/-- Rows of the bids-with-seller-name join of GET /api/projects/:id/bids. -/
structure BidWithSeller where
  bid : BidRow
  seller_name : String
deriving Repr, DecidableEq

/-- The join rows of GET /api/projects/:id/bids: bids of the project joined
with the matching users rows. -/
def bidJoinRows (db : DB) (pid : String) : List BidWithSeller :=
  (db.bids.filter (fun b => b.project_id == pid)).flatMap (fun b =>
    (db.users.filter (fun u => u.id == b.seller_id)).map (fun u => ⟨b, u.name⟩))

/-- GET /api/projects/:id/bids handler: always 200, empty list included. -/
def getProjectBids (db : DB) (pid : String) : Response :=
  ⟨200, .bidList ((bidJoinRows db pid).map (·.bid)) ((bidJoinRows db pid).map (·.seller_name))⟩

/-- POST /api/bids handler: 201 on success, 500 with the raw error on failure. -/
def postBids (db : DB) (id project_id seller_id : String) (amount : Int)
    (proposal : String) : DB × Response :=
  match insertBid db id project_id seller_id amount proposal with
  | .ok db2 => (db2, ⟨201, .ack⟩)
  | .error e => (db, ⟨500, .errorMsg e⟩)

/-- GET /api/projects/:id/milestones handler: always 200 with the milestones
of the given project id, an empty list for an unknown id. -/
def getProjectMilestones (db : DB) (pid : String) : Response :=
  ⟨200, .milestoneList (db.milestones.filter (fun m => m.project_id == pid))⟩

/-- POST /api/milestones handler: 201 on success, 500 with the raw error on
failure. -/
def postMilestones (db : DB) (id project_id title : String) (amount : Int) :
    DB × Response :=
  match insertMilestone db id project_id title amount with
  | .ok db2 => (db2, ⟨201, .ack⟩)
  | .error e => (db, ⟨500, .errorMsg e⟩)

/-- GET /api/projects/:id/matchmaking handler, parameterised by the AI Text
Gateway function getMatchmakingAdvice (modelled as an oracle that may fail).
The project and the seller-role users are queried first; an unknown project id
answers 404 before the gateway is invoked.  The second component records
whether the gateway was invoked. -/
def getMatchmaking (db : DB) (pid : String)
    (gw : String → List String → Except String String) : Response × Bool :=
  match db.projects.find? (fun p => p.id == pid) with
  | none => (⟨404, .errorMsg "Project not found"⟩, false)
  | some project =>
    match gw project.description
        ((db.users.filter (fun u => u.role == "seller")).map
          (fun s => s.name ++ ": " ++ s.bio)) with
    | .ok advice => (⟨200, .adviceBody advice⟩, true)
    | .error e => (⟨500, .errorMsg e⟩, true)

/-- The socket payload of a send_message event: raw client JSON, so every
field may be absent. -/
structure MsgData where
  sender_id : Option String
  receiver_id : Option String
  content : Option String
deriving Repr, DecidableEq

/-- One socket connection: its socket id and the rooms it has joined. -/
structure Conn where
  sid : String
  rooms : List String
deriving Repr, DecidableEq

/-- The state of the Socket.IO relay: the connected sockets and the database. -/
structure RelayState where
  conns : List Conn
  db : DB
deriving Repr, DecidableEq

/-- The join event handler: the connection with the given socket id joins the
room named after the user id (a no-op if already joined). -/
def joinRoom (st : RelayState) (sid userId : String) : RelayState :=
  { st with conns := st.conns.map (fun c =>
      if c.sid == sid then
        (if c.rooms.contains userId then c else { c with rooms := c.rooms ++ [userId] })
      else c) }

/-- INSERT INTO messages: an absent payload field binds as NULL and violates
the NOT NULL constraint; on success the row gets the next AUTOINCREMENT id and
the current timestamp. -/
def insertMessage (db : DB) (d : MsgData) : Except String (DB × MessageRow) :=
  match d.sender_id, d.receiver_id, d.content with
  | some s, some r, some c =>
    let m : MessageRow :=
      { id := db.nextMessageId, sender_id := s, receiver_id := r, content := c,
        timestamp := db.clock }
    .ok ({ db with
           messages := db.messages ++ [m],
           nextMessageId := db.nextMessageId + 1,
           clock := db.clock + 1 }, m)
  | none, _, _ => .error "NOT NULL constraint failed: messages.sender_id"
  | some _, none, _ => .error "NOT NULL constraint failed: messages.receiver_id"
  | some _, some _, none => .error "NOT NULL constraint failed: messages.content"

/-- An observable event of the send_message handler: the synchronous database
insert, or a receive_message emission to one socket. -/
inductive Ev where
  | persist (m : MessageRow)
  | emit (sid : String) (d : MsgData)
deriving Repr, DecidableEq

/-- Whether an event is a receive_message emission. -/
def Ev.isEmit : Ev → Bool
  | .emit _ _ => true
  | .persist _ => false

/-- The send_message handler for the connection with socket id senderSid: the
message is persisted first; if the insert throws, the handler aborts and
nothing is emitted.  Otherwise the payload is emitted once to every connection
joined to the room named after receiver_id, and then echoed once to the
sending connection. -/
def sendMessage (st : RelayState) (senderSid : String) (d : MsgData) :
    RelayState × List Ev :=
  match insertMessage st.db d with
  | .error _ => (st, [])
  | .ok (db2, m) =>
    let roomEmits := (st.conns.filter (fun c => c.rooms.contains m.receiver_id)).map
      (fun c => Ev.emit c.sid d)
    ({ st with db := db2 }, Ev.persist m :: roomEmits ++ [Ev.emit senderSid d])

/-- The socket ids that receive a receive_message emission in a trace, with
multiplicity and in emission order. -/
def deliveries (tr : List Ev) : List String :=
  tr.filterMap (fun e => match e with | .emit sid _ => some sid | .persist _ => none)

/-- Well-formedness of a database state, as SQLite guarantees it: primary keys
and the unique email column hold no duplicates, and every foreign key
resolves.  The initial seeded database satisfies it and every handler
preserves it. -/
def DB.Wf (db : DB) : Prop :=
  (db.users.map (fun u => u.id)).Nodup ∧
  (db.users.map (fun u => u.email)).Nodup ∧
  (db.projects.map (fun p => p.id)).Nodup ∧
  (db.bids.map (fun b => b.id)).Nodup ∧
  (db.milestones.map (fun m => m.id)).Nodup ∧
  (∀ p ∈ db.projects, p.buyer_id ∈ db.users.map (fun u => u.id)) ∧
  (∀ m ∈ db.milestones, m.project_id ∈ db.projects.map (fun p => p.id)) ∧
  (∀ b ∈ db.bids, b.project_id ∈ db.projects.map (fun p => p.id)) ∧
  (∀ b ∈ db.bids, b.seller_id ∈ db.users.map (fun u => u.id))

instance (db : DB) : Decidable db.Wf := by
  unfold DB.Wf
  infer_instance

/-! Concrete scenario states used to instantiate and to refute individual
claims.  Each is built exclusively through the handler functions above. -/

/-- The database after one successful project creation on top of the seeds,
holding three milestones with ids w1, w2, w3. -/
def c9db1 : DB :=
  (postProjects initialDb "q1" "buyer_1" "T1" "D1" 100 200 "w1" "w2" "w3").1

/-- A fresh user request that reuses the seed buyer email. -/
def u9 : UserRow where
  id := "u9"
  name := "Nadia"
  email := "hr@acme.com"
  role := "seller"
  bio := "b"
  avatar := "a"

/-- A brand-new, unreferenced user. -/
def ua : UserRow where
  id := "u1"
  name := "Alice"
  email := "a@x.com"
  role := "seller"
  bio := "b"
  avatar := "a"

/-- A second new user that reuses the email of ua. -/
def ub : UserRow where
  id := "u2"
  name := "Bea"
  email := "a@x.com"
  role := "seller"
  bio := "b"
  avatar := "a"

/-- The seeded database after upserting ua. -/
def dbA : DB := (postUsers initialDb ua).1

/-- A relay state with a single connection whose socket joined the room of
user u1, i.e. a sender joined to their own group. -/
def st0 : RelayState where
  conns := [{ sid := "s1", rooms := ["u1"] }]
  db := initialDb

/-- A self-addressed message payload from user u1. -/
def d0 : MsgData where
  sender_id := some "u1"
  receiver_id := some "u1"
  content := some "hi"

/-- A relay state with two connections, each joined to its own user room. -/
def stW : RelayState where
  conns := [{ sid := "s1", rooms := ["u1"] }, { sid := "s2", rooms := ["u2"] }]
  db := initialDb

/-! Helper lemmas about the list combinators that the SQL embedding uses. -/

theorem any_field_false {α : Type} (f : α → String) (x : String) (l : List α)
    (h : x ∉ l.map f) : (l.any (fun a => f a == x)) = false := by
  simp only [List.any_eq_false, beq_iff_eq]
  intro a ha he
  exact h (he ▸ List.mem_map_of_mem f ha)

theorem any_field_true {α : Type} (f : α → String) (x : String) (l : List α)
    (h : x ∈ l.map f) : (l.any (fun a => f a == x)) = true := by
  rcases List.mem_map.mp h with ⟨a, ha, he⟩
  exact List.any_eq_true.mpr ⟨a, ha, by simp [he]⟩

theorem filter_field_nil {α : Type} (f : α → String) (x : String) (l : List α)
    (h : ∀ a ∈ l, f a ≠ x) : l.filter (fun a => f a == x) = [] := by
  rw [List.filter_eq_nil_iff]
  intro a ha
  simp only [beq_iff_eq]
  exact h a ha

theorem filter_field_single {α : Type} (f : α → String) (l : List α)
    (hnd : (l.map f).Nodup) (a : α) (ha : a ∈ l) (x : String) (hx : f a = x) :
    l.filter (fun b => f b == x) = [a] := by
  induction l with
  | nil => cases ha
  | cons b t ih =>
    rw [List.map_cons, List.nodup_cons] at hnd
    rcases List.mem_cons.mp ha with rfl | hat
    · rw [List.filter_cons, if_pos (by simp [hx])]
      have ht : t.filter (fun b2 => f b2 == x) = [] := by
        apply filter_field_nil
        intro a2 ha2 he
        apply hnd.1
        have hfa : f a = f a2 := by rw [hx, he]
        rw [hfa]
        exact List.mem_map_of_mem f ha2
      rw [ht]
    · have hne : f b ≠ x := by
        intro he
        apply hnd.1
        rw [he, ← hx]
        exact List.mem_map_of_mem f hat
      rw [List.filter_cons, if_neg (by simp [hne])]
      exact ih hnd.2 hat

theorem count_filter_map_sid (q : Conn → Bool) (conns : List Conn)
    (hnd : (conns.map (fun c => c.sid)).Nodup) (cn : Conn) (hcn : cn ∈ conns) :
    ((conns.filter q).map (fun c => c.sid)).count cn.sid = if q cn then 1 else 0 := by
  induction conns with
  | nil => cases hcn
  | cons b t ih =>
    rw [List.map_cons, List.nodup_cons] at hnd
    rcases List.mem_cons.mp hcn with rfl | hct
    · have h0 : ((t.filter q).map (fun c => c.sid)).count cn.sid = 0 := by
        rw [List.count_eq_zero]
        intro hmem
        exact hnd.1 (((List.filter_sublist t).map (fun c => c.sid)).subset hmem)
      by_cases hq : q cn = true
      · rw [List.filter_cons, if_pos hq, List.map_cons, List.count_cons_self, h0, if_pos hq]
      · rw [List.filter_cons, if_neg hq, h0, if_neg hq]
    · have hbs : cn.sid ≠ b.sid := by
        intro he
        exact hnd.1 (he ▸ List.mem_map_of_mem (fun c => c.sid) hct)
      by_cases hq : q b = true
      · rw [List.filter_cons, if_pos hq, List.map_cons, List.count_cons_of_ne hbs]
        exact ih hnd.2 hct
      · rw [List.filter_cons, if_neg hq]
        exact ih hnd.2 hct

theorem postProjects_ok (db : DB) (id buyer_id title description : String)
    (bmin bmax : Int) (m1 m2 m3 : String)
    (hfresh : id ∉ db.projects.map (fun p => p.id))
    (hbuyer : buyer_id ∈ db.users.map (fun u => u.id))
    (h12 : m1 ≠ m2) (h13 : m1 ≠ m3) (h23 : m2 ≠ m3)
    (hm1 : m1 ∉ db.milestones.map (fun m => m.id))
    (hm2 : m2 ∉ db.milestones.map (fun m => m.id))
    (hm3 : m3 ∉ db.milestones.map (fun m => m.id)) :
    postProjects db id buyer_id title description bmin bmax m1 m2 m3 =
      ({ db with
         projects := db.projects ++
           [{ id := id, buyer_id := buyer_id, title := title, description := description,
              budget_min := bmin, budget_max := bmax, status := "open",
              created_at := db.clock }],
         milestones := db.milestones ++
           [{ id := m1, project_id := id, title := "Project Kickoff & Strategy",
              amount := floorTenths bmin 2, status := "pending" },
            { id := m2, project_id := id, title := "Initial Talent Sourcing",
              amount := floorTenths bmin 4, status := "pending" },
            { id := m3, project_id := id, title := "Final Placement & Onboarding",
              amount := floorTenths bmin 4, status := "pending" }],
         clock := db.clock + 1 }, ⟨201, .ack⟩) := by
  have hA : (db.projects.any (fun p => p.id == id)) = false :=
    any_field_false (fun p => p.id) id db.projects hfresh
  have hB : (db.users.any (fun u => u.id == buyer_id)) = true :=
    any_field_true (fun u => u.id) buyer_id db.users hbuyer
  have hM1 : (db.milestones.any (fun m => m.id == m1)) = false :=
    any_field_false (fun m => m.id) m1 db.milestones hm1
  have hM2 : (db.milestones.any (fun m => m.id == m2)) = false :=
    any_field_false (fun m => m.id) m2 db.milestones hm2
  have hM3 : (db.milestones.any (fun m => m.id == m3)) = false :=
    any_field_false (fun m => m.id) m3 db.milestones hm3
  have e12 : (m1 == m2) = false := beq_eq_false_iff_ne.mpr h12
  have e13 : (m1 == m3) = false := beq_eq_false_iff_ne.mpr h13
  have e23 : (m2 == m3) = false := beq_eq_false_iff_ne.mpr h23
  simp only [postProjects, insertProject, insertMilestone, hA, hB, hM1, hM2, hM3,
    Bool.not_true, Bool.not_false, Bool.false_eq_true, if_false, if_true,
    List.any_append, List.any_cons, List.any_nil, beq_self_eq_true, e12, e13, e23,
    Bool.or_false, Bool.or_true, Bool.true_or, Bool.false_or, List.append_assoc,
    List.cons_append, List.nil_append, ite_false, ite_true]

/-- Claim C1 (amended): a create-project request that succeeds (fresh project
id, existing buyer, fresh distinct milestone ids) answers 201 and creates
exactly three milestone rows for the new project, with amounts
floor(0.2 budget_min), floor(0.4 budget_min), floor(0.4 budget_min); the
amounts are non-negative provided budget_min is non-negative (for a negative
budget_min they are negative, see the counterexample). -/
theorem claim1_milestone_amounts (db : DB) (id buyer_id title description : String)
    (bmin bmax : Int) (m1 m2 m3 : String)
    (hwf : db.Wf)
    (hfresh : id ∉ db.projects.map (fun p => p.id))
    (hbuyer : buyer_id ∈ db.users.map (fun u => u.id))
    (h12 : m1 ≠ m2) (h13 : m1 ≠ m3) (h23 : m2 ≠ m3)
    (hm1 : m1 ∉ db.milestones.map (fun m => m.id))
    (hm2 : m2 ∉ db.milestones.map (fun m => m.id))
    (hm3 : m3 ∉ db.milestones.map (fun m => m.id))
    (hB : 0 ≤ bmin) :
    (postProjects db id buyer_id title description bmin bmax m1 m2 m3).2 = ⟨201, .ack⟩ ∧
    (postProjects db id buyer_id title description bmin bmax m1 m2 m3).1.milestones.filter
        (fun m => m.project_id == id) =
      [ { id := m1, project_id := id, title := "Project Kickoff & Strategy",
          amount := floorTenths bmin 2, status := "pending" },
        { id := m2, project_id := id, title := "Initial Talent Sourcing",
          amount := floorTenths bmin 4, status := "pending" },
        { id := m3, project_id := id, title := "Final Placement & Onboarding",
          amount := floorTenths bmin 4, status := "pending" } ] ∧
    0 ≤ floorTenths bmin 2 ∧ 0 ≤ floorTenths bmin 4 := by
  rw [postProjects_ok db id buyer_id title description bmin bmax m1 m2 m3
    hfresh hbuyer h12 h13 h23 hm1 hm2 hm3]
  refine ⟨rfl, ?_, ?_, ?_⟩
  · have hold : db.milestones.filter (fun m => m.project_id == id) = [] := by
      apply filter_field_nil
      intro m hm he
      exact hfresh (he ▸ hwf.2.2.2.2.2.2.1 m hm)
    rw [List.filter_append, hold, List.nil_append]
    simp [List.filter_cons]
  · exact Int.fdiv_nonneg (by omega) (by omega)
  · exact Int.fdiv_nonneg (by omega) (by omega)

/-- Witness for claim C1 at the end-to-end scenario of the spec: budget_min
1000 gives milestone amounts 200, 400, 400, totalling 1000. -/
theorem claim1_witness :
    ((postProjects initialDb "p9" "buyer_1" "X" "D" 1000 2000 "m1" "m2" "m3").2 = ⟨201, .ack⟩ ∧
     (postProjects initialDb "p9" "buyer_1" "X" "D" 1000 2000 "m1" "m2" "m3").1.milestones.filter
         (fun m => m.project_id == "p9") =
       [ { id := "m1", project_id := "p9", title := "Project Kickoff & Strategy",
           amount := floorTenths 1000 2, status := "pending" },
         { id := "m2", project_id := "p9", title := "Initial Talent Sourcing",
           amount := floorTenths 1000 4, status := "pending" },
         { id := "m3", project_id := "p9", title := "Final Placement & Onboarding",
           amount := floorTenths 1000 4, status := "pending" } ] ∧
     0 ≤ floorTenths 1000 2 ∧ 0 ≤ floorTenths 1000 4) ∧
    floorTenths 1000 2 + floorTenths 1000 4 + floorTenths 1000 4 = 1000 :=
  ⟨claim1_milestone_amounts initialDb "p9" "buyer_1" "X" "D" 1000 2000 "m1" "m2" "m3"
      (by decide) (by decide) (by decide) (by decide) (by decide) (by decide)
      (by decide) (by decide) (by decide) (by decide),
   by decide⟩

/-- Counterexample to claim C1 as stated: with budget_min = -5 the three
auto-created milestone amounts are -1, -2, -2, so they are not all
non-negative. -/
theorem claim1_counterexample :
    ((postProjects initialDb "p9" "buyer_1" "X" "D" (-5) 10 "m1" "m2" "m3").1.milestones.filter
        (fun m => m.project_id == "p9")).map (fun m => m.amount) = [-1, -2, -2] ∧
    ¬ (∀ m ∈ (postProjects initialDb "p9" "buyer_1" "X" "D" (-5) 10 "m1" "m2" "m3").1.milestones.filter
        (fun m => m.project_id == "p9"), 0 ≤ m.amount) := by
  decide

/-- Claim C6: requesting matchmaking advice for a project id that is not in
the store answers 404 and the AI gateway function is never invoked. -/
theorem claim6_matchmaking_404 (db : DB) (pid : String)
    (gw : String → List String → Except String String)
    (h : pid ∉ db.projects.map (fun p => p.id)) :
    getMatchmaking db pid gw = (⟨404, .errorMsg "Project not found"⟩, false) := by
  unfold getMatchmaking
  have hf : db.projects.find? (fun p => p.id == pid) = none := by
    rw [List.find?_eq_none]
    intro p hp
    simp only [beq_iff_eq]
    intro he
    exact h (he ▸ List.mem_map_of_mem (fun p => p.id) hp)
  rw [hf]

/-- Witness for claim C6 at a concrete unknown project id and a gateway
oracle that would answer successfully if it were called. -/
theorem claim6_witness :
    getMatchmaking initialDb "ghost" (fun _ _ => .ok "advice") =
      (⟨404, .errorMsg "Project not found"⟩, false) :=
  claim6_matchmaking_404 initialDb "ghost" (fun _ _ => .ok "advice") (by decide)

/-- Claim C9: the create-project sequence is not atomic.  In the concrete
execution below the second create-project call inserts its project row, then
its first milestone insert fails on a duplicate milestone id; the response is
the 500 error branch and the store keeps the new project row with zero
milestone rows. -/
theorem claim9_partial_failure :
    (postProjects c9db1 "q2" "buyer_1" "T2" "D2" 100 200 "w1" "x2" "x3").2 =
      ⟨500, .errorMsg "UNIQUE constraint failed: milestones.id"⟩ ∧
    "q2" ∈ (postProjects c9db1 "q2" "buyer_1" "T2" "D2" 100 200 "w1" "x2" "x3").1.projects.map
      (fun p => p.id) ∧
    (postProjects c9db1 "q2" "buyer_1" "T2" "D2" 100 200 "w1" "x2" "x3").1.milestones.filter
      (fun m => m.project_id == "q2") = [] := by
  decide

/-- Claim C10: in every send_message execution the database insert precedes
every receive_message emission (every emission in the trace is preceded by
the persist event of the matching message row, which is in the store
afterwards), and if the insert fails nothing is emitted. -/
theorem claim10_persist_before_emit (st : RelayState) (senderSid : String) (d : MsgData) :
    (∀ (i : Nat) (sid2 : String) (d2 : MsgData),
        ((sendMessage st senderSid d).2)[i]? = some (Ev.emit sid2 d2) →
      ∃ j : Nat, j < i ∧ ∃ m, ((sendMessage st senderSid d).2)[j]? = some (Ev.persist m) ∧
        d2.sender_id = some m.sender_id ∧ d2.receiver_id = some m.receiver_id ∧
        d2.content = some m.content ∧ m ∈ (sendMessage st senderSid d).1.db.messages) ∧
    (∀ e, insertMessage st.db d = .error e → (sendMessage st senderSid d).2 = []) := by
  obtain ⟨os, orr, oc⟩ := d
  cases os with
  | none =>
    refine ⟨fun i sid2 d2 hi => ?_, fun e _ => ?_⟩
    · simp [sendMessage, insertMessage] at hi
    · simp [sendMessage, insertMessage]
  | some s =>
    cases orr with
    | none =>
      refine ⟨fun i sid2 d2 hi => ?_, fun e _ => ?_⟩
      · simp [sendMessage, insertMessage] at hi
      · simp [sendMessage, insertMessage]
    | some r =>
      cases oc with
      | none =>
        refine ⟨fun i sid2 d2 hi => ?_, fun e _ => ?_⟩
        · simp [sendMessage, insertMessage] at hi
        · simp [sendMessage, insertMessage]
      | some c =>
        refine ⟨fun i sid2 d2 hi => ?_, fun e he => ?_⟩
        · have hd2 : d2 = ⟨some s, some r, some c⟩ := by
            have hmem : Ev.emit sid2 d2 ∈ (sendMessage st senderSid ⟨some s, some r, some c⟩).2 := by
              exact List.getElem?_mem hi
            simp only [sendMessage, insertMessage] at hmem
            rcases List.mem_cons.mp hmem with hper | hrest
            · cases hper
            · rcases List.mem_append.mp hrest with hroom | hecho
              · rcases List.mem_map.mp hroom with ⟨x, _, hx⟩
                cases hx
                rfl
              · rcases List.mem_singleton.mp hecho with he2
                cases he2
                rfl
          cases i with
          | zero =>
            simp [sendMessage, insertMessage] at hi
          | succ k =>
            refine ⟨0, Nat.succ_pos k, ?_⟩
            refine ⟨{ id := st.db.nextMessageId, sender_id := s, receiver_id := r,
                      content := c, timestamp := st.db.clock }, ?_, ?_, ?_, ?_, ?_⟩
            · simp [sendMessage, insertMessage]
            · rw [hd2]
            · rw [hd2]
            · rw [hd2]
            · simp [sendMessage, insertMessage]
        · simp [insertMessage] at he

/-- Witness for claim C10: in the concrete one-connection relay state the
event at index 1 is an emission, and the theorem produces the persist event
strictly before it. -/
theorem claim10_witness :
    ∃ j : Nat, j < 1 ∧ ∃ m, ((sendMessage st0 "s1" d0).2)[j]? = some (Ev.persist m) ∧
      d0.sender_id = some m.sender_id ∧ d0.receiver_id = some m.receiver_id ∧
      d0.content = some m.content ∧ m ∈ (sendMessage st0 "s1" d0).1.db.messages :=
  (claim10_persist_before_emit st0 "s1" d0).1 1 "s1" d0 (by decide)

theorem deliveries_persist (m : MessageRow) (t : List Ev) :
    deliveries (Ev.persist m :: t) = deliveries t := by
  simp [deliveries, List.filterMap_cons]

theorem deliveries_append (t1 t2 : List Ev) :
    deliveries (t1 ++ t2) = deliveries t1 ++ deliveries t2 := by
  simp [deliveries, List.filterMap_append]

theorem deliveries_map_emit (l : List Conn) (d : MsgData) :
    deliveries (l.map (fun x => Ev.emit x.sid d)) = l.map (fun x => x.sid) := by
  induction l with
  | nil => rfl
  | cons h t ih => simp [deliveries, List.filterMap_cons] at ih ⊢; exact ih

theorem deliveries_single_emit (sid : String) (d : MsgData) :
    deliveries [Ev.emit sid d] = [sid] := rfl

/-- Claim C2 (amended): for a well-formed payload, a connection receives the
message once per membership in the receiver room, plus one echo copy when it
is the sending connection; so a connection joined to the receiver room
receives exactly one copy unless it is also the sending connection, in which
case it receives two (the A = B self-message case of the counterexample). -/
theorem claim2_delivery_counts (st : RelayState) (senderSid : String) (a r c : String)
    (hnd : (st.conns.map (fun x => x.sid)).Nodup)
    (cn : Conn) (hcn : cn ∈ st.conns) :
    (deliveries (sendMessage st senderSid ⟨some a, some r, some c⟩).2).count cn.sid =
      (if r ∈ cn.rooms then 1 else 0) + (if cn.sid = senderSid then 1 else 0) := by
  have hred : deliveries (sendMessage st senderSid ⟨some a, some r, some c⟩).2 =
      ((st.conns.filter (fun x => x.rooms.contains r)).map (fun x => x.sid)) ++ [senderSid] := by
    show deliveries (Ev.persist _ ::
      (st.conns.filter (fun x => x.rooms.contains r)).map (fun x => Ev.emit x.sid _) ++
        [Ev.emit senderSid _]) = _
    rw [deliveries_append, deliveries_persist, deliveries_map_emit, deliveries_single_emit]
  rw [hred, List.count_append]
  rw [count_filter_map_sid (fun x => x.rooms.contains r) st.conns hnd cn hcn]
  have h2 : List.count cn.sid [senderSid] = if cn.sid = senderSid then 1 else 0 := by
    by_cases he : cn.sid = senderSid
    · rw [he, if_pos rfl]
      simp
    · rw [if_neg he]
      simp [List.count_cons, he]
  rw [h2]
  by_cases hmem : r ∈ cn.rooms
  · rw [if_pos hmem, if_pos (List.elem_iff.mpr hmem)]
  · rw [if_neg hmem, if_neg (fun hcont => hmem (List.elem_iff.mp hcont))]

/-- Witness for claim C2: with two connections each joined to their own room,
a message from user u1 to user u2 reaches the connection of u2 exactly once. -/
theorem claim2_witness :
    (deliveries (sendMessage stW "s1" ⟨some "u1", some "u2", some "hello"⟩).2).count "s2" =
      (if "u2" ∈ (["u2"] : List String) then 1 else 0) + (if "s2" = "s1" then 1 else 0) :=
  claim2_delivery_counts stW "s1" "u1" "u2" "hello" (by decide) ⟨"s2", ["u2"]⟩ (by decide)

/-- Counterexample to claim C2 as stated: when the sender has joined its own
room and sends a message to itself (A = B), its connection is joined to the
receiver group yet receives two copies, not exactly one. -/
theorem claim2_counterexample :
    (⟨"s1", ["u1"]⟩ : Conn) ∈ st0.conns ∧ "u1" ∈ (["u1"] : List String) ∧
    (deliveries (sendMessage st0 "s1" d0).2).count "s1" = 2 := by
  decide

/-- Claim C8 (amended): an upsert whose id already exists in the store with a
different name leaves exactly one users row with that id, and that row is the
new one carrying the new name, provided the statement itself succeeds (201).
The unconditional claim is refuted by the counterexample: the statement can
fail, e.g. when the changed payload also takes the email of a different,
referenced user (foreign key failure at statement conclusion) or an invalid
role (CHECK failure); then the endpoint answers 500 and the stored row keeps
the old name. -/
theorem claim8_upsert_name (db : DB) (u : UserRow)
    (hex : ∃ v ∈ db.users, v.id = u.id ∧ v.name ≠ u.name)
    (hok : (postUsers db u).2.status = 201) :
    (postUsers db u).1.users.filter (fun v => v.id == u.id) = [u] := by
  unfold postUsers at hok ⊢
  cases h : insertOrReplaceUser db u with
  | error e =>
    rw [h] at hok
    simp at hok
  | ok db2 =>
    show db2.users.filter (fun v => v.id == u.id) = [u]
    unfold insertOrReplaceUser at h
    by_cases hrole : (!(u.role == "buyer" || u.role == "seller")) = true
    · rw [if_pos hrole] at h
      cases h
    · rw [if_neg hrole] at h
      by_cases hfk : usersFkOk db (db.users.filter (replFilter u) ++ [u]) = true
      · rw [if_pos hfk] at h
        injection h with h2
        rw [← h2]
        show (db.users.filter (replFilter u) ++ [u]).filter (fun v => v.id == u.id) = [u]
        rw [List.filter_append]
        have h0 : (db.users.filter (replFilter u)).filter (fun v => v.id == u.id) = [] := by
          rw [List.filter_eq_nil_iff]
          intro v hv
          have hrepl := (List.mem_filter.mp hv).2
          simp only [replFilter, Bool.and_eq_true, Bool.not_eq_true', beq_eq_false_iff_ne] at hrepl
          simp [hrepl.1]
        rw [h0, List.nil_append]
        simp [List.filter_cons]
      · rw [if_neg hfk] at h
        cases h

/-- Witness for claim C8: renaming the seed buyer through the upsert endpoint
leaves a single users row with id buyer_1, carrying the new name. -/
theorem claim8_witness :
    (postUsers initialDb
      { id := "buyer_1", name := "Acme People Ops", email := "hr@acme.com",
        role := "buyer", bio := "b", avatar := "a" }).1.users.filter
      (fun v => v.id == "buyer_1") =
    [{ id := "buyer_1", name := "Acme People Ops", email := "hr@acme.com",
       role := "buyer", bio := "b", avatar := "a" }] :=
  claim8_upsert_name initialDb
    { id := "buyer_1", name := "Acme People Ops", email := "hr@acme.com",
      role := "buyer", bio := "b", avatar := "a" }
    ⟨seedBuyer, by decide, by decide, by decide⟩ (by decide)

/-- Counterexample to claim C8 as stated: seller_1 exists with a different
name, yet upserting seller_1 with a changed name and the email of the
referenced seed buyer fails the end-of-statement foreign key check with 500,
and the stored seller_1 row keeps its old name. -/
theorem claim8_counterexample :
    (∃ v ∈ initialDb.users, v.id = "seller_1" ∧ v.name ≠ "Changed") ∧
    (postUsers initialDb
      { id := "seller_1", name := "Changed", email := "hr@acme.com",
        role := "seller", bio := "b", avatar := "a" }).2 =
      ⟨500, .errorMsg "FOREIGN KEY constraint failed"⟩ ∧
    (postUsers initialDb
      { id := "seller_1", name := "Changed", email := "hr@acme.com",
        role := "seller", bio := "b", avatar := "a" }).1.users.filter
      (fun v => v.id == "seller_1") = [seedSeller] ∧
    seedSeller.name ≠ "Changed" := by
  decide

/-- Claim C4 (amended): upserting a user with a fresh id i and the email of a
different stored user j succeeds with 201 and deletes the row of j, provided
no stored project or bid references j (otherwise the statement fails on the
foreign key check at its conclusion, see the counterexample); email
uniqueness of the users table is preserved. -/
theorem claim4_email_replace (db : DB) (u j : UserRow)
    (hwf : db.Wf)
    (hj : j ∈ db.users) (hje : j.email = u.email) (hji : j.id ≠ u.id)
    (hrole : u.role = "buyer" ∨ u.role = "seller")
    (hnoProj : ∀ p ∈ db.projects, p.buyer_id ≠ j.id)
    (hnoBid : ∀ b ∈ db.bids, b.seller_id ≠ j.id) :
    (postUsers db u).2 = ⟨201, .ack⟩ ∧
    j.id ∉ (postUsers db u).1.users.map (fun v => v.id) ∧
    u ∈ (postUsers db u).1.users ∧
    ((postUsers db u).1.users.map (fun v => v.email)).Nodup := by
  obtain ⟨hndId, hndEm, hwfRest⟩ := hwf
  have hprojFk := hwfRest.2.2.2.1
  have hbidFk := hwfRest.2.2.2.2.2.2
  have hrole2 : (!(u.role == "buyer" || u.role == "seller")) = false := by
    rcases hrole with h | h <;> simp [h]
  have hsurv : ∀ v ∈ db.users, v.id ≠ u.id → v.id ≠ j.id →
      v ∈ db.users.filter (replFilter u) := by
    intro v hv hvu hvj
    apply List.mem_filter.mpr
    refine ⟨hv, ?_⟩
    have hvemail : v.email ≠ u.email := by
      intro he
      have hveq : v = j := List.inj_on_of_nodup_map hndEm hv hj (by rw [he, hje])
      exact hvj (by rw [hveq])
    simp [replFilter, hvu, hvemail]
  have hfk : usersFkOk db (db.users.filter (replFilter u) ++ [u]) = true := by
    unfold usersFkOk
    rw [Bool.and_eq_true]
    constructor
    · rw [List.all_eq_true]
      intro p hp
      apply any_field_true (fun v : UserRow => v.id)
      rw [List.map_append]
      by_cases hbu : p.buyer_id = u.id
      · exact List.mem_append.mpr (Or.inr (by simp [hbu]))
      · obtain ⟨v, hv, hvid⟩ := List.mem_map.mp (hprojFk p hp)
        refine List.mem_append.mpr (Or.inl ?_)
        rw [← hvid]
        apply List.mem_map_of_mem (fun v : UserRow => v.id)
        exact hsurv v hv (by rw [hvid]; exact hbu) (by rw [hvid]; exact hnoProj p hp)
    · rw [List.all_eq_true]
      intro b hb
      apply any_field_true (fun v : UserRow => v.id)
      rw [List.map_append]
      by_cases hbu : b.seller_id = u.id
      · exact List.mem_append.mpr (Or.inr (by simp [hbu]))
      · obtain ⟨v, hv, hvid⟩ := List.mem_map.mp (hbidFk b hb)
        refine List.mem_append.mpr (Or.inl ?_)
        rw [← hvid]
        apply List.mem_map_of_mem (fun v : UserRow => v.id)
        exact hsurv v hv (by rw [hvid]; exact hbu) (by rw [hvid]; exact hnoBid b hb)
  have hres : postUsers db u =
      ({ db with users := db.users.filter (replFilter u) ++ [u] }, ⟨201, .ack⟩) := by
    unfold postUsers insertOrReplaceUser
    rw [hrole2]
    simp only [Bool.false_eq_true, if_false]
    rw [if_pos hfk]
  rw [hres]
  refine ⟨rfl, ?_, ?_, ?_⟩
  · show j.id ∉ (db.users.filter (replFilter u) ++ [u]).map (fun v => v.id)
    rw [List.map_append]
    intro hmem
    rcases List.mem_append.mp hmem with hleft | hright
    · obtain ⟨v, hv, hvid⟩ := List.mem_map.mp hleft
      have hvusers := (List.mem_filter.mp hv).1
      have hrepl := (List.mem_filter.mp hv).2
      simp only [replFilter, Bool.and_eq_true, Bool.not_eq_true', beq_eq_false_iff_ne] at hrepl
      have hveq : v = j := List.inj_on_of_nodup_map hndId hvusers hj hvid
      exact hrepl.2 (by rw [hveq, hje])
    · exact hji (List.mem_singleton.mp hright)
  · exact List.mem_append.mpr (Or.inr (List.mem_singleton.mpr rfl))
  · show ((db.users.filter (replFilter u) ++ [u]).map (fun v => v.email)).Nodup
    rw [List.map_append]
    apply List.Nodup.append
    · exact ((List.filter_sublist db.users).map (fun v => v.email)).nodup hndEm
    · exact List.nodup_singleton u.email
    · intro x hx hxu
      rw [List.mem_singleton.mp hxu] at hx
      obtain ⟨v, hv, hvem⟩ := List.mem_map.mp hx
      have hrepl := (List.mem_filter.mp hv).2
      simp only [replFilter, Bool.and_eq_true, Bool.not_eq_true', beq_eq_false_iff_ne] at hrepl
      exact hrepl.2 hvem

/-- Witness for claim C4: after creating a fresh unreferenced user u1,
upserting u2 with the email of u1 answers 201, removes u1 and keeps emails
unique. -/
theorem claim4_witness :
    (postUsers dbA ub).2 = ⟨201, .ack⟩ ∧
    ua.id ∉ (postUsers dbA ub).1.users.map (fun v => v.id) ∧
    ub ∈ (postUsers dbA ub).1.users ∧
    ((postUsers dbA ub).1.users.map (fun v => v.email)).Nodup :=
  claim4_email_replace dbA ub ua (by decide) (by decide) (by decide) (by decide)
    (Or.inr (by decide)) (by decide) (by decide)

/-- Counterexample to claim C4 as stated: on the seeded store the seed buyer
is referenced by the seed projects, so upserting a fresh id with the seed
buyer email does not succeed with 201; it fails with the foreign key error
and the conflicting row is not deleted. -/
theorem claim4_counterexample :
    (∃ v ∈ initialDb.users, v.email = u9.email ∧ v.id ≠ u9.id) ∧
    (postUsers initialDb u9).2 = ⟨500, .errorMsg "FOREIGN KEY constraint failed"⟩ ∧
    "buyer_1" ∈ (postUsers initialDb u9).1.users.map (fun v => v.id) := by
  decide

/-- Claim C3 (amended): every write endpoint answers 201 with the minimal
acknowledgment on success, or 500 carrying the raw error message of the
failing statement; no handler of the API ever answers 400.  The claimed
example is wrong, however: a user upsert whose email duplicates another row
is not a constraint failure, the conflicting row is replaced and the endpoint
answers 201 (see the counterexample); a duplicate-email replacement only
fails, with the raw foreign key error, when the replaced row is referenced. -/
theorem claim3_statuses :
    (∀ db u, (postUsers db u).2 = ⟨201, .ack⟩ ∨
      ∃ e, insertOrReplaceUser db u = .error e ∧ (postUsers db u).2 = ⟨500, .errorMsg e⟩) ∧
    (∀ db id b t d bmin bmax m1 m2 m3,
      (postProjects db id b t d bmin bmax m1 m2 m3).2 = ⟨201, .ack⟩ ∨
      ∃ e, (postProjects db id b t d bmin bmax m1 m2 m3).2 = ⟨500, .errorMsg e⟩) ∧
    (∀ db id p s a pr, (postBids db id p s a pr).2 = ⟨201, .ack⟩ ∨
      ∃ e, insertBid db id p s a pr = .error e ∧ (postBids db id p s a pr).2 = ⟨500, .errorMsg e⟩) ∧
    (∀ db id p t a, (postMilestones db id p t a).2 = ⟨201, .ack⟩ ∨
      ∃ e, insertMilestone db id p t a = .error e ∧
        (postMilestones db id p t a).2 = ⟨500, .errorMsg e⟩) ∧
    (∀ db u, (postUsers db u).2.status ≠ 400) ∧
    (∀ db id b t d bmin bmax m1 m2 m3,
      (postProjects db id b t d bmin bmax m1 m2 m3).2.status ≠ 400) ∧
    (∀ db id p s a pr, (postBids db id p s a pr).2.status ≠ 400) ∧
    (∀ db id p t a, (postMilestones db id p t a).2.status ≠ 400) ∧
    (∀ db, (getProjects db).status ≠ 400) ∧
    (∀ db uid, (getUserById db uid).status ≠ 400) ∧
    (∀ db pid, (getProjectBids db pid).status ≠ 400) ∧
    (∀ db pid, (getProjectMilestones db pid).status ≠ 400) ∧
    (∀ db pid gw, (getMatchmaking db pid gw).1.status ≠ 400) := by
  refine ⟨?_, ?_, ?_, ?_, ?_, ?_, ?_, ?_, ?_, ?_, ?_, ?_, ?_⟩
  · intro db u
    unfold postUsers
    split
    next db2 heq => exact Or.inl rfl
    next e heq => exact Or.inr ⟨e, heq, rfl⟩
  · intro db id b t d bmin bmax m1 m2 m3
    unfold postProjects
    split
    next e heq => exact Or.inr ⟨e, rfl⟩
    next db1 heq =>
      split
      next e heq2 => exact Or.inr ⟨e, rfl⟩
      next db2 heq2 =>
        split
        next e heq3 => exact Or.inr ⟨e, rfl⟩
        next db3 heq3 =>
          split
          next e heq4 => exact Or.inr ⟨e, rfl⟩
          next db4 heq4 => exact Or.inl rfl
  · intro db id p s a pr
    unfold postBids
    split
    next db2 heq => exact Or.inl rfl
    next e heq => exact Or.inr ⟨e, heq, rfl⟩
  · intro db id p t a
    unfold postMilestones
    split
    next db2 heq => exact Or.inl rfl
    next e heq => exact Or.inr ⟨e, heq, rfl⟩
  · intro db u
    unfold postUsers
    split <;> simp
  · intro db id b t d bmin bmax m1 m2 m3
    unfold postProjects
    split
    · simp
    · split
      · simp
      · split
        · simp
        · split <;> simp
  · intro db id p s a pr
    unfold postBids
    split <;> simp
  · intro db id p t a
    unfold postMilestones
    split <;> simp
  · intro db
    simp [getProjects]
  · intro db uid
    unfold getUserById
    split <;> simp
  · intro db pid
    simp [getProjectBids]
  · intro db pid
    simp [getProjectMilestones]
  · intro db pid gw
    unfold getMatchmaking
    split
    · simp
    · split <;> simp

/-- Witness for claim C3: a concrete successful bid creation on the seeded
store takes the 201 branch. -/
theorem claim3_witness :
    (postBids initialDb "b1" "p1" "seller_1" 4000 "proposal").2 = ⟨201, .ack⟩ ∨
    ∃ e, insertBid initialDb "b1" "p1" "seller_1" 4000 "proposal" = .error e ∧
      (postBids initialDb "b1" "p1" "seller_1" 4000 "proposal").2 = ⟨500, .errorMsg e⟩ :=
  claim3_statuses.2.2.1 initialDb "b1" "p1" "seller_1" 4000 "proposal"

/-- Counterexample to claim C3 as stated: creating a user whose email
duplicates the email of the (unreferenced) stored user u1 does not surface as
a 500; the INSERT OR REPLACE resolves the conflict and answers 201. -/
theorem claim3_counterexample :
    (∃ v ∈ dbA.users, v.email = ub.email ∧ v.id ≠ ub.id) ∧
    (postUsers dbA ub).2 = ⟨201, .ack⟩ ∧
    (postUsers dbA ub).2.status ≠ 500 := by
  decide

theorem find?_field_none {α : Type} (f : α → String) (x : String) (l : List α)
    (h : x ∉ l.map f) : l.find? (fun a => f a == x) = none := by
  rw [List.find?_eq_none]
  intro a ha
  simp only [beq_iff_eq]
  intro he
  exact h (he ▸ List.mem_map_of_mem f ha)

/-- Claim C5 (amended): a missing id answers 404 on the matchmaking lookup
and also on GET user-by-id (the claim named only matchmaking, see the
counterexample); listing bids or milestones of an unknown project answers
200 with an empty list, the project listing always answers 200, and no write
endpoint ever answers 404. -/
theorem claim5_not_found_surface :
    (∀ db uid, uid ∉ db.users.map (fun v => v.id) →
      getUserById db uid = ⟨404, .errorMsg "User not found"⟩) ∧
    (∀ db pid gw, pid ∉ db.projects.map (fun p => p.id) →
      (getMatchmaking db pid gw).1.status = 404) ∧
    (∀ db pid, db.Wf → pid ∉ db.projects.map (fun p => p.id) →
      getProjectBids db pid = ⟨200, .bidList [] []⟩) ∧
    (∀ db pid, db.Wf → pid ∉ db.projects.map (fun p => p.id) →
      getProjectMilestones db pid = ⟨200, .milestoneList []⟩) ∧
    (∀ db, (getProjects db).status = 200) ∧
    (∀ db u, (postUsers db u).2.status ≠ 404) ∧
    (∀ db id b t d bmin bmax m1 m2 m3,
      (postProjects db id b t d bmin bmax m1 m2 m3).2.status ≠ 404) ∧
    (∀ db id p s a pr, (postBids db id p s a pr).2.status ≠ 404) ∧
    (∀ db id p t a, (postMilestones db id p t a).2.status ≠ 404) := by
  refine ⟨?_, ?_, ?_, ?_, ?_, ?_, ?_, ?_, ?_⟩
  · intro db uid h
    unfold getUserById
    rw [find?_field_none (fun v : UserRow => v.id) uid db.users h]
  · intro db pid gw h
    unfold getMatchmaking
    rw [find?_field_none (fun p : ProjectRow => p.id) pid db.projects h]
  · intro db pid hwf h
    have h0 : db.bids.filter (fun b => b.project_id == pid) = [] := by
      apply filter_field_nil
      intro b hb he
      exact h (he ▸ hwf.2.2.2.2.2.2.2.1 b hb)
    unfold getProjectBids bidJoinRows
    rw [h0]
    rfl
  · intro db pid hwf h
    have h0 : db.milestones.filter (fun m => m.project_id == pid) = [] := by
      apply filter_field_nil
      intro m hm he
      exact h (he ▸ hwf.2.2.2.2.2.2.1 m hm)
    unfold getProjectMilestones
    rw [h0]
  · intro db
    rfl
  · intro db u
    unfold postUsers
    split <;> simp
  · intro db id b t d bmin bmax m1 m2 m3
    unfold postProjects
    split
    · simp
    · split
      · simp
      · split
        · simp
        · split <;> simp
  · intro db id p s a pr
    unfold postBids
    split <;> simp
  · intro db id p t a
    unfold postMilestones
    split <;> simp

/-- Witness for claim C5: the unknown-user 404 branch at a concrete id absent
from the seeded store. -/
theorem claim5_witness :
    getUserById initialDb "ghost" = ⟨404, .errorMsg "User not found"⟩ :=
  claim5_not_found_surface.1 initialDb "ghost" (by decide)

/-- Counterexample to claim C5 as stated: GET user-by-id, which is not the
matchmaking lookup, explicitly answers 404 with an error body for an unknown
user id. -/
theorem claim5_counterexample :
    "nobody" ∉ initialDb.users.map (fun v => v.id) ∧
    (getUserById initialDb "nobody").status = 404 ∧
    getUserById initialDb "nobody" = ⟨404, .errorMsg "User not found"⟩ := by
  decide

theorem joinRows_countP (projs : List ProjectRow) (users : List UserRow)
    (pid : String) (hfresh : ∀ p ∈ projs, p.id ≠ pid) (P : ProjectRow) (hP : P.id = pid)
    (u : UserRow) (hu : u ∈ users) (hnd : (users.map (fun v => v.id)).Nodup)
    (hbu : u.id = P.buyer_id) :
    ((projs ++ [P]).flatMap
        (fun p => (users.filter (fun v => v.id == p.buyer_id)).map
          (fun v => ProjectWithBuyer.mk p v.name))).countP
      (fun x => x.proj.id == pid) = 1 := by
  rw [List.flatMap_append, List.countP_append]
  have h0 : (projs.flatMap
      (fun p => (users.filter (fun v => v.id == p.buyer_id)).map
        (fun v => ProjectWithBuyer.mk p v.name))).countP (fun x => x.proj.id == pid) = 0 := by
    rw [List.countP_eq_zero]
    intro x hx
    obtain ⟨p, hp, hxp⟩ := List.mem_flatMap.mp hx
    obtain ⟨v, hv, hvx⟩ := List.mem_map.mp hxp
    subst hvx
    simp only [beq_iff_eq]
    exact hfresh p hp
  have h1 : (([P] : List ProjectRow).flatMap
      (fun p => (users.filter (fun v => v.id == p.buyer_id)).map
        (fun v => ProjectWithBuyer.mk p v.name))).countP (fun x => x.proj.id == pid) = 1 := by
    show ((users.filter (fun v : UserRow => v.id == P.buyer_id)).map
      (fun v : UserRow => ProjectWithBuyer.mk P v.name) ++ []).countP
        (fun x : ProjectWithBuyer => x.proj.id == pid) = 1
    rw [List.append_nil, filter_field_single (fun v : UserRow => v.id) users hnd u hu P.buyer_id hbu]
    simp [List.countP_cons, hP]
  rw [h0, h1]

theorem joinRows_buyer_name (projs : List ProjectRow) (users : List UserRow)
    (pid : String) (hfresh : ∀ p ∈ projs, p.id ≠ pid) (P : ProjectRow)
    (u : UserRow) (hu : u ∈ users) (hnd : (users.map (fun v => v.id)).Nodup)
    (hbu : u.id = P.buyer_id) :
    ∀ x ∈ (projs ++ [P]).flatMap
        (fun p => (users.filter (fun v => v.id == p.buyer_id)).map
          (fun v => ProjectWithBuyer.mk p v.name)),
      x.proj.id = pid → x.buyer_name = u.name := by
  intro x hx hxid
  rw [List.flatMap_append] at hx
  rcases List.mem_append.mp hx with hl | hr
  · obtain ⟨p, hp, hxp⟩ := List.mem_flatMap.mp hl
    obtain ⟨v, hv, hvx⟩ := List.mem_map.mp hxp
    subst hvx
    exact absurd hxid (hfresh p hp)
  · obtain ⟨p, hp, hxp⟩ := List.mem_flatMap.mp hr
    rw [List.mem_singleton] at hp
    rw [hp] at hxp
    rw [filter_field_single (fun v : UserRow => v.id) users hnd u hu P.buyer_id hbu] at hxp
    obtain ⟨v, hv, hvx⟩ := List.mem_map.mp hxp
    rw [List.mem_singleton] at hv
    subst hv
    subst hvx
    rfl

/-- Claim C7: the project listing is ordered by created_at newest-first and
every row carries the name of the users row matched on buyer_id; after a
successful creation of a project with a fresh id by the existing buyer u, the
listing contains the new project exactly once, with buyer_name = u.name. -/
theorem claim7_listing (db : DB) (pid buyer_id title description : String)
    (bmin bmax : Int) (m1 m2 m3 : String) (u : UserRow)
    (hwf : db.Wf) (hu : u ∈ db.users) (huid : u.id = buyer_id)
    (hfresh : pid ∉ db.projects.map (fun p => p.id))
    (h12 : m1 ≠ m2) (h13 : m1 ≠ m3) (h23 : m2 ≠ m3)
    (hm1 : m1 ∉ db.milestones.map (fun m => m.id))
    (hm2 : m2 ∉ db.milestones.map (fun m => m.id))
    (hm3 : m3 ∉ db.milestones.map (fun m => m.id)) :
    (∀ d : DB, List.Pairwise newestFirst (projectListing d)) ∧
    (∀ d : DB, ∀ x ∈ projectListing d,
      ∃ v ∈ d.users, v.id = x.proj.buyer_id ∧ x.buyer_name = v.name) ∧
    (projectListing (postProjects db pid buyer_id title description bmin bmax m1 m2 m3).1).countP
      (fun x => x.proj.id == pid) = 1 ∧
    (∀ x ∈ projectListing (postProjects db pid buyer_id title description bmin bmax m1 m2 m3).1,
      x.proj.id = pid → x.buyer_name = u.name) := by
  have hbuyer : buyer_id ∈ db.users.map (fun v => v.id) := by
    rw [← huid]
    exact List.mem_map_of_mem (fun v : UserRow => v.id) hu
  have hpost := postProjects_ok db pid buyer_id title description bmin bmax m1 m2 m3
    hfresh hbuyer h12 h13 h23 hm1 hm2 hm3
  have hfresh2 : ∀ p ∈ db.projects, p.id ≠ pid := by
    intro p hp he
    exact hfresh (he ▸ List.mem_map_of_mem (fun q => q.id) hp)
  refine ⟨?_, ?_, ?_, ?_⟩
  · intro d
    exact List.sorted_insertionSort newestFirst (projectJoinRows d)
  · intro d x hx
    unfold projectListing at hx
    have hx2 : x ∈ projectJoinRows d := (List.mem_insertionSort newestFirst).mp hx
    unfold projectJoinRows at hx2
    obtain ⟨p, hp, hxp⟩ := List.mem_flatMap.mp hx2
    obtain ⟨v, hv, hvx⟩ := List.mem_map.mp hxp
    subst hvx
    refine ⟨v, (List.mem_filter.mp hv).1, ?_, rfl⟩
    have hvid := (List.mem_filter.mp hv).2
    simpa using hvid
  · unfold projectListing
    rw [(List.perm_insertionSort newestFirst _).countP_eq]
    rw [hpost]
    unfold projectJoinRows
    dsimp only
    exact joinRows_countP db.projects db.users pid hfresh2 _ rfl u hu hwf.1 huid
  · intro x hx hxid
    unfold projectListing at hx
    have hx2 := (List.mem_insertionSort newestFirst).mp hx
    rw [hpost] at hx2
    unfold projectJoinRows at hx2
    dsimp only at hx2
    exact joinRows_buyer_name db.projects db.users pid hfresh2 _ u hu hwf.1 huid x hx2 hxid

/-- Witness for claim C7 at the seeded store: after the seed buyer creates a
fresh project p9, the listing contains p9 exactly once. -/
theorem claim7_witness :
    (projectListing (postProjects initialDb "p9" "buyer_1" "X" "D" 1000 2000 "m1" "m2" "m3").1).countP
      (fun x => x.proj.id == "p9") = 1 :=
  (claim7_listing initialDb "p9" "buyer_1" "X" "D" 1000 2000 "m1" "m2" "m3" seedBuyer
    (by decide) (by decide) (by decide) (by decide) (by decide) (by decide) (by decide)
    (by decide) (by decide) (by decide)).2.2.1
